import Mathlib

/-!
Shallow embedding of `joystick.py` (repository cptx032/pjla): the record
decoder `JoystickEvent`, the dispatch table held in `Joystick.function_map`
with its `bind` registration, and the per-record dispatch performed by
`Joystick.process_events`.  Bytes are modelled as `Fin 256`, Python ints as
`Nat`/`Int`, and the callable handlers as an abstract type `H`; invoking the
handlers for one record is modelled by the ordered list (trace) of handlers
called.
-/

namespace Pjla

/-- Event type constants from the top of `joystick.py`. -/
def JS_EVENT_BUTTON : Nat := 0x01

def JS_EVENT_AXIS : Nat := 0x02

def JS_EVENT_INIT : Nat := 0x80

def JS_BUTTON_RELEASE : Int := 0x00

def JS_BUTTON_PRESS : Int := 0x01

/-- Direction characters from `joystick.py`. -/
def DIR_ARROW_UP : Char := 'U'

def DIR_ARROW_RIGHT : Char := 'R'

def DIR_ARROW_DOWN : Char := 'D'

def DIR_ARROW_LEFT : Char := 'L'

/-- Axis index constants (`KM_ML_*`) from `joystick.py`. -/
def KM_ML_ARROW_AXIS_X : Nat := 0

def KM_ML_ARROW_AXIS_Y : Nat := 1

def KM_ML_LEFT_STICK_AXIS_X : Nat := 0

def KM_ML_LEFT_STICK_AXIS_Y : Nat := 1

def KM_ML_RIGHT_STICK_AXIS_X : Nat := 2

def KM_ML_RIGHT_STICK_AXIS_Y : Nat := 3

def KM_ML_ARROWA_AXIS_X : Nat := 4

def KM_ML_ARROWA_AXIS_Y : Nat := 5

/-- One byte of the raw record. -/
abbrev Byte := Fin 256

/-- Python decodes the value field with `sys.byteorder`, the platform-native
byte order; the embedding is parametric in it. -/
inductive ByteOrder
  | little
  | big
deriving DecidableEq

/-- Model of `int.from_bytes(data, sys.byteorder, signed=True)` for a 2-byte
buffer `[b0, b1]`. -/
def int_from_bytes2_signed (bo : ByteOrder) (b0 b1 : Byte) : Int :=
  let u : Nat :=
    match bo with
    | .little => b0.val + 256 * b1.val
    | .big => 256 * b0.val + b1.val
  if u < 32768 then (u : Int) else (u : Int) - 65536

/-- Model of `JoystickEvent.get_direction` (lines 63-84 of `joystick.py`),
as a function of the `type`, `number` and `value` fields it reads. -/
def get_direction (ty : Nat) (number : Nat) (value : Int) : Option Char :=
  let x_axis : List Nat :=
    [KM_ML_ARROW_AXIS_X, KM_ML_LEFT_STICK_AXIS_X,
     KM_ML_RIGHT_STICK_AXIS_X, KM_ML_ARROWA_AXIS_X]
  let y_axis : List Nat :=
    [KM_ML_ARROW_AXIS_Y, KM_ML_LEFT_STICK_AXIS_Y,
     KM_ML_RIGHT_STICK_AXIS_Y, KM_ML_ARROWA_AXIS_Y]
  if ty = JS_EVENT_AXIS then
    if number ∈ x_axis ∧ value < 0 then some DIR_ARROW_LEFT
    else if number ∈ x_axis ∧ value > 0 then some DIR_ARROW_RIGHT
    else if number ∈ y_axis ∧ value < 0 then some DIR_ARROW_UP
    else if number ∈ y_axis ∧ value > 0 then some DIR_ARROW_DOWN
    else none
  else none

/-- The decoded event, with the fields set by `JoystickEvent.__init__`. -/
structure JoystickEvent where
  time : List Byte
  value : Int
  type : Nat
  number : Nat
  direction : Option Char
deriving DecidableEq

/-- Model of `JoystickEvent.__init__` (lines 52-61): the `assert` on the
length becomes an `Except.error`, and the field extraction follows the
source slicing (`[:4]`, `[4:6]` signed native order, byte 6, byte 7). -/
def JoystickEvent.decode (bo : ByteOrder) (raw : List Byte) :
    Except String JoystickEvent :=
  if h : raw.length = 8 then
    let value := int_from_bytes2_signed bo (raw.get ⟨4, by omega⟩)
      (raw.get ⟨5, by omega⟩)
    let ty := (raw.get ⟨6, by omega⟩).val
    let number := (raw.get ⟨7, by omega⟩).val
    .ok
      { time := raw.take 4
        value := value
        type := ty
        number := number
        direction := get_direction ty number value }
  else .error "Invalid size of data"

/-- Category constants from class `Joystick`. -/
def ANY : Nat := 0

def BUTTON_PRESS : Nat := 1

def BUTTON_RELEASE : Nat := 2

def ARROW_PRESS : Nat := 3

def ARROW_RELEASE : Nat := 4

/-- The five categories accepted by `Joystick.bind`. -/
def validCategories : List Nat :=
  [ANY, BUTTON_PRESS, BUTTON_RELEASE, ARROW_PRESS, ARROW_RELEASE]

/-- The dispatch table `Joystick.function_map`: each category holds an
ordered list of handlers. -/
def FunctionMap (H : Type) : Type := Nat → List H

/-- The empty table built by `Joystick.__init__`. -/
def FunctionMap.empty (H : Type) : FunctionMap H := fun _ => []

/-- Pointwise update of one category's list, modelling assignment into the
Python dict. -/
def FunctionMap.set {H : Type} (fm : FunctionMap H) (c : Nat) (l : List H) :
    FunctionMap H :=
  fun c' => if c' = c then l else fm c'

/-- Model of `Joystick.bind` (lines 121-153).  The two `assert` statements
run before any mutation; on failure the table is untouched.  In the source,
`list_func` is the bound `append` method and the test `list_func == '-'`
compares a method object against a string, which in Python is always false,
so `list_func` is `append` for every accepted operation, including `'-'`. -/
def bind {H : Type} (fm : FunctionMap H) (event_type : Nat) (func : H)
    (operation : Option String) : Except String (FunctionMap H) :=
  if operation ∈ ([none, some "+", some "-"] : List (Option String)) then
    if event_type ∈ validCategories then
      let fm1 := if operation = none then fm.set event_type [] else fm
      .ok (fm1.set event_type (fm1 event_type ++ [func]))
    else .error "invalid event_type"
  else .error "Invalid operation"

/-- The table observed after a call of `Joystick.bind`: a failed `assert`
propagates as an exception and leaves `function_map` exactly as it was. -/
def bind_run {H : Type} (fm : FunctionMap H) (event_type : Nat) (func : H)
    (operation : Option String) : FunctionMap H :=
  match bind fm event_type func operation with
  | .ok fm' => fm'
  | .error _ => fm

/-- Trace of the handlers called for `category`: `invoke` runs every handler
in the category's list, in list order. -/
def invoke {H : Type} (fm : FunctionMap H) (category : Nat) : List H :=
  fm category

/-- Python truthiness of the `key` variable in `process_events`: `None` and
`0` are falsy, any other integer is truthy. -/
def py_truthy (key : Option Nat) : Bool :=
  match key with
  | none => false
  | some k => k ≠ 0

/-- Model of the per-record dispatch in `Joystick.process_events`
(lines 171-189): the ordered trace of handlers called for one decoded
event.  The ANY list runs first; then `event.type` is compared for equality
against `JS_EVENT_BUTTON` and `JS_EVENT_AXIS` and the matching category's
list runs. -/
def process_one_event {H : Type} (fm : FunctionMap H) (e : JoystickEvent) :
    List H :=
  let anyCalls := fm ANY
  let catCalls : List H :=
    if e.type = JS_EVENT_BUTTON then
      let key : Option Nat :=
        if e.value = JS_BUTTON_RELEASE then some BUTTON_RELEASE
        else if e.value = JS_BUTTON_PRESS then some BUTTON_PRESS
        else none
      if py_truthy key then fm (key.getD 0) else []
    else if e.type = JS_EVENT_AXIS then
      let key : Nat := if e.value ≠ 0 then ARROW_PRESS else ARROW_RELEASE
      fm key
    else []
  anyCalls ++ catCalls

end Pjla

namespace Pjla

/-! Helper lemmas shared by several claim theorems. -/

/-- Evaluating `FunctionMap.set` at the updated and at another category. -/
theorem FunctionMap.set_same {H : Type} (fm : FunctionMap H) (c : Nat)
    (l : List H) : fm.set c l c = l := by
  simp [FunctionMap.set]

theorem FunctionMap.set_other {H : Type} (fm : FunctionMap H) (c c' : Nat)
    (l : List H) (h : c' ≠ c) : fm.set c l c' = fm c' := by
  simp [FunctionMap.set, h]

/-- A non-`none` result of `get_direction` forces the type to be exactly
`JS_EVENT_AXIS` and the value to be nonzero. -/
theorem get_direction_ne_none {ty n : Nat} {v : Int}
    (h : get_direction ty n v ≠ none) : ty = JS_EVENT_AXIS ∧ v ≠ 0 := by
  by_cases hty : ty = JS_EVENT_AXIS
  · refine ⟨hty, fun hv => ?_⟩
    subst hv
    simp [get_direction, hty] at h
  · simp [get_direction, hty] at h

/-- Successful decoding forces the record length to be 8 and fixes every
field of the event from the bytes. -/
theorem decode_ok_fields {bo : ByteOrder} {raw : List Byte}
    {e : JoystickEvent} (h : JoystickEvent.decode bo raw = .ok e) :
    ∃ hl : raw.length = 8,
      e.time = raw.take 4 ∧
      e.value = int_from_bytes2_signed bo (raw.get ⟨4, by omega⟩)
        (raw.get ⟨5, by omega⟩) ∧
      e.type = (raw.get ⟨6, by omega⟩).val ∧
      e.number = (raw.get ⟨7, by omega⟩).val ∧
      e.direction = get_direction e.type e.number e.value := by
  unfold JoystickEvent.decode at h
  split at h
  · rename_i hl
    injection h with h
    subst h
    exact ⟨hl, rfl, rfl, rfl, rfl, rfl⟩
  · exact absurd h (by simp)

end Pjla

namespace Pjla

/-! Claim C1: REMOVE mode of `bind`. -/

/-- Table whose `BUTTON_PRESS` list holds the handler `7` as its only
matching instance. -/
def C1table : FunctionMap Nat := (FunctionMap.empty Nat).set BUTTON_PRESS [7]

/-- A decoded button-press record (type `BUTTON`, value `1`). -/
def C1event : JoystickEvent :=
  { time := [0, 0, 0, 0], value := 1, type := JS_EVENT_BUTTON, number := 2,
    direction := none }

/-- C1: the claim says that `bind` with operation `'-'` on a table whose
`BUTTON_PRESS` list is `[7]` deletes handler `7`, so a later button-press
invocation does not call it.  The code instead appends: the resulting list
is `[7, 7]` and a button-press record calls handler `7` (twice), because
the source compares the bound `append` method, not `operation`, against
`'-'`. -/
theorem C1_remove_appends_instead_of_deleting :
    (bind C1table BUTTON_PRESS 7 (some "-")).map
      (fun fm => invoke fm BUTTON_PRESS) = .ok [7, 7] ∧
    (bind C1table BUTTON_PRESS 7 (some "-")).map
      (fun fm => process_one_event fm C1event) = .ok [7, 7] := by
  constructor <;> rfl

/-! Claim C2: classification of one record in `process_events`. -/

/-- Table whose `BUTTON_PRESS` list holds the handler `7`. -/
def C2table : FunctionMap Nat := (FunctionMap.empty Nat).set BUTTON_PRESS [7]

/-- A record carrying type `BUTTON ||| INIT = 0x81` and value `1`. -/
def C2event : JoystickEvent :=
  { time := [0, 0, 0, 0], value := 1, type := 0x81, number := 2,
    direction := none }

/-- C2 counterexample: for an event whose type includes `BUTTON` together
with the `INIT` bit `0x80` (type `0x81`) and whose value is `1`, the claim
says the `BUTTON_PRESS` handlers are invoked; the code compares the type
for exact equality with `0x01`, so no handler at all is invoked even though
the table holds a `BUTTON_PRESS` handler. -/
theorem C2_counterexample_init_flag :
    C2event.type &&& JS_EVENT_BUTTON = JS_EVENT_BUTTON ∧
    C2event.value = 1 ∧
    invoke C2table BUTTON_PRESS = [7] ∧
    process_one_event C2table C2event = [] := by
  refine ⟨rfl, rfl, rfl, rfl⟩

/-- C2 (amended): for every record decoded in one poll-loop pass, the
handlers invoked after the ANY handlers are exactly: if the type equals
`BUTTON` (0x01) exactly, value `0` invokes the `BUTTON_RELEASE` list,
value `1` the `BUTTON_PRESS` list, any other value none; if the type
equals `AXIS` (0x02) exactly, nonzero value invokes the `ARROW_PRESS`
list and zero value the `ARROW_RELEASE` list; any other type — including
any type with the `INIT` bit `0x80` set — invokes no category handlers. -/
theorem C2_dispatch_per_record {H : Type} (fm : FunctionMap H)
    (e : JoystickEvent) :
    process_one_event fm e =
      invoke fm ANY ++
        (if e.type = JS_EVENT_BUTTON then
          (if e.value = 0 then invoke fm BUTTON_RELEASE
           else if e.value = 1 then invoke fm BUTTON_PRESS
           else [])
         else if e.type = JS_EVENT_AXIS then
          (if e.value = 0 then invoke fm ARROW_RELEASE
           else invoke fm ARROW_PRESS)
         else []) := by
  unfold process_one_event invoke py_truthy
  unfold JS_BUTTON_RELEASE JS_BUTTON_PRESS
  split_ifs <;>
    simp_all [ANY, BUTTON_PRESS, BUTTON_RELEASE, ARROW_PRESS, ARROW_RELEASE]

end Pjla

namespace Pjla

/-! Claims C3, C4, C5. -/

/-- C3: for a record whose type field equals `AXIS`, the derived direction
is LEFT exactly when `number` is one of the X-axis indices (d-pad X,
left-stick X, right-stick X, auxiliary-arrow X) and the value is negative,
RIGHT for those indices and a positive value, UP and DOWN likewise for the
Y-axis indices, and there is no direction exactly when the value is zero or
`number` lies outside both index sets.  The statement is quantified over
every `number` and every `value`, so it covers the eight supported indices
crossed with negative, zero and positive values. -/
theorem C3_direction_table (n : Nat) (v : Int) :
    (get_direction JS_EVENT_AXIS n v = some DIR_ARROW_LEFT ↔
      (n = KM_ML_ARROW_AXIS_X ∨ n = KM_ML_LEFT_STICK_AXIS_X ∨
       n = KM_ML_RIGHT_STICK_AXIS_X ∨ n = KM_ML_ARROWA_AXIS_X) ∧ v < 0) ∧
    (get_direction JS_EVENT_AXIS n v = some DIR_ARROW_RIGHT ↔
      (n = KM_ML_ARROW_AXIS_X ∨ n = KM_ML_LEFT_STICK_AXIS_X ∨
       n = KM_ML_RIGHT_STICK_AXIS_X ∨ n = KM_ML_ARROWA_AXIS_X) ∧ 0 < v) ∧
    (get_direction JS_EVENT_AXIS n v = some DIR_ARROW_UP ↔
      (n = KM_ML_ARROW_AXIS_Y ∨ n = KM_ML_LEFT_STICK_AXIS_Y ∨
       n = KM_ML_RIGHT_STICK_AXIS_Y ∨ n = KM_ML_ARROWA_AXIS_Y) ∧ v < 0) ∧
    (get_direction JS_EVENT_AXIS n v = some DIR_ARROW_DOWN ↔
      (n = KM_ML_ARROW_AXIS_Y ∨ n = KM_ML_LEFT_STICK_AXIS_Y ∨
       n = KM_ML_RIGHT_STICK_AXIS_Y ∨ n = KM_ML_ARROWA_AXIS_Y) ∧ 0 < v) ∧
    (get_direction JS_EVENT_AXIS n v = none ↔
      v = 0 ∨ (n ≠ 0 ∧ n ≠ 1 ∧ n ≠ 2 ∧ n ≠ 3 ∧ n ≠ 4 ∧ n ≠ 5)) := by
  unfold get_direction
  unfold KM_ML_ARROW_AXIS_X KM_ML_LEFT_STICK_AXIS_X KM_ML_RIGHT_STICK_AXIS_X
  unfold KM_ML_ARROWA_AXIS_X KM_ML_ARROW_AXIS_Y KM_ML_LEFT_STICK_AXIS_Y
  unfold KM_ML_RIGHT_STICK_AXIS_Y KM_ML_ARROWA_AXIS_Y
  unfold DIR_ARROW_LEFT DIR_ARROW_RIGHT DIR_ARROW_UP DIR_ARROW_DOWN
  simp only [if_pos rfl, List.mem_cons, List.not_mem_nil, or_false]
  split_ifs <;> simp_all <;> omega

/-- C4: for every table and every decoded event, the trace of handler calls
for the record starts with the full ANY list, so every ANY-registered
handler runs, before any category-specific handler, whatever the event's
type and value — including combinations that map to no category. -/
theorem C4_any_handlers_run_first {H : Type} (fm : FunctionMap H)
    (e : JoystickEvent) :
    ∃ rest : List H, process_one_event fm e = invoke fm ANY ++ rest :=
  ⟨_, rfl⟩

/-- C5: decoding fails with the invalid-size error on every buffer whose
length is not exactly 8 — producing no event at all, hence neither
truncating nor padding — and succeeds on every buffer of length exactly
8. -/
theorem C5_decode_size (bo : ByteOrder) (raw : List Byte) :
    (raw.length ≠ 8 →
      JoystickEvent.decode bo raw = .error "Invalid size of data") ∧
    (raw.length = 8 → ∃ e, JoystickEvent.decode bo raw = .ok e) := by
  constructor <;> intro h
  · unfold JoystickEvent.decode
    rw [dif_neg h]
  · unfold JoystickEvent.decode
    rw [dif_pos h]
    exact ⟨_, rfl⟩

/-- C5 witness: the empty buffer is rejected with the invalid-size error and
a concrete 8-byte buffer decodes successfully. -/
theorem C5_decode_size_witness :
    JoystickEvent.decode .little [] = .error "Invalid size of data" ∧
    ∃ e, JoystickEvent.decode .little
      ([0, 0, 0, 0, 0, 0, 0, 0] : List Byte) = .ok e :=
  ⟨(C5_decode_size .little []).1 (by decide),
   (C5_decode_size .little [0, 0, 0, 0, 0, 0, 0, 0]).2 (by decide)⟩

end Pjla

namespace Pjla

/-! Claims C6, C7. -/

/-- C6: appending a handler with operation `'+'` to a valid category puts it
at the end of that category's list, so an invocation of the category calls
every previously registered handler first, in registration order, and then
the new handler; when the handler was not already registered there it is
called exactly once. -/
theorem C6_append_registration {H : Type} [DecidableEq H]
    (fm : FunctionMap H) (c : Nat) (f : H) (hc : c ∈ validCategories)
    (hnew : f ∉ invoke fm c) :
    ∃ fm', bind fm c f (some "+") = .ok fm' ∧
      invoke fm' c = invoke fm c ++ [f] ∧
      (invoke fm' c).count f = 1 ∧
      (invoke fm' c).getLast? = some f := by
  refine ⟨fm.set c (fm c ++ [f]), ?_, ?_, ?_, ?_⟩
  · unfold bind
    rw [if_pos (show (some "+") ∈ _ by simp), if_pos hc]
    rfl
  · unfold invoke
    exact fm.set_same c (fm c ++ [f])
  · unfold invoke at hnew ⊢
    rw [fm.set_same c (fm c ++ [f]), List.count_append]
    rw [List.count_eq_zero.mpr hnew]
    simp
  · unfold invoke
    rw [fm.set_same c (fm c ++ [f])]
    exact List.getLast?_concat _

/-- C6 witness: appending handler `3` to `ARROW_PRESS` on the empty table. -/
theorem C6_append_registration_witness :
    ∃ fm', bind (FunctionMap.empty Nat) ARROW_PRESS 3 (some "+") = .ok fm' ∧
      invoke fm' ARROW_PRESS =
        invoke (FunctionMap.empty Nat) ARROW_PRESS ++ [3] ∧
      (invoke fm' ARROW_PRESS).count 3 = 1 ∧
      (invoke fm' ARROW_PRESS).getLast? = some 3 :=
  C6_append_registration (FunctionMap.empty Nat) ARROW_PRESS 3 (by decide)
    (by decide)

/-- C7: registering with the default operation (`None`) makes the category's
list exactly `[f]`, discarding its previous handlers, while every other
category keeps its list unchanged. -/
theorem C7_replace_registration {H : Type} (fm : FunctionMap H) (c : Nat)
    (f : H) (hc : c ∈ validCategories) :
    ∃ fm', bind fm c f none = .ok fm' ∧ invoke fm' c = [f] ∧
      ∀ c', c' ≠ c → invoke fm' c' = invoke fm c' := by
  refine ⟨(fm.set c []).set c ((fm.set c []) c ++ [f]), ?_, ?_, ?_⟩
  · unfold bind
    rw [if_pos (show (none : Option String) ∈ _ by simp), if_pos hc]
    rfl
  · unfold invoke
    rw [FunctionMap.set_same, FunctionMap.set_same]
    rfl
  · intro c' hne
    unfold invoke
    rw [FunctionMap.set_other _ _ _ _ hne, FunctionMap.set_other _ _ _ _ hne]

/-- C7 witness: replacing the `BUTTON_PRESS` list `[1, 2]` by handler `9`
leaves every other category's list unchanged. -/
theorem C7_replace_registration_witness :
    ∃ fm', bind ((FunctionMap.empty Nat).set BUTTON_PRESS [1, 2])
        BUTTON_PRESS 9 none = .ok fm' ∧
      invoke fm' BUTTON_PRESS = [9] ∧
      ∀ c', c' ≠ BUTTON_PRESS → invoke fm' c' =
        invoke ((FunctionMap.empty Nat).set BUTTON_PRESS [1, 2]) c' :=
  C7_replace_registration ((FunctionMap.empty Nat).set BUTTON_PRESS [1, 2])
    BUTTON_PRESS 9 (by decide)

end Pjla

namespace Pjla

/-! Claims C8, C9, C10. -/

/-- C8: decoding is a pure function of the input bytes (and the fixed
platform byte order): two runs on identical 8-byte inputs yield events with
identical timestamp, value, type, number and direction fields. -/
theorem C8_decode_deterministic (bo : ByteOrder) (raw1 raw2 : List Byte)
    (heq : raw1 = raw2) (e1 e2 : JoystickEvent)
    (h1 : JoystickEvent.decode bo raw1 = .ok e1)
    (h2 : JoystickEvent.decode bo raw2 = .ok e2) :
    e1.time = e2.time ∧ e1.value = e2.value ∧ e1.type = e2.type ∧
      e1.number = e2.number ∧ e1.direction = e2.direction := by
  subst heq
  rw [h1] at h2
  injection h2 with h
  subst h
  exact ⟨rfl, rfl, rfl, rfl, rfl⟩

/-- A concrete 8-byte record for the C8 witness. -/
def C8raw : List Byte := [1, 2, 3, 4, 5, 6, 2, 0]

/-- The event decoded from `C8raw` in little-endian order: value is
`5 + 256 * 6 = 1541`, type `AXIS`, number `0`, so direction RIGHT. -/
def C8event : JoystickEvent :=
  { time := [1, 2, 3, 4], value := 1541, type := 2, number := 0,
    direction := some DIR_ARROW_RIGHT }

/-- C8 witness: decoding `C8raw` twice yields the same fields. -/
theorem C8_decode_deterministic_witness :
    C8event.time = C8event.time ∧ C8event.value = C8event.value ∧
      C8event.type = C8event.type ∧ C8event.number = C8event.number ∧
      C8event.direction = C8event.direction :=
  C8_decode_deterministic .little C8raw C8raw rfl C8event C8event rfl rfl

/-- C9: whenever a decoded event carries a direction, its type field equals
`AXIS` (0x02) exactly — in particular the `INIT` bit 0x80 is clear — and
its value is nonzero. -/
theorem C9_direction_implies_axis (bo : ByteOrder) (raw : List Byte)
    (e : JoystickEvent) (hdec : JoystickEvent.decode bo raw = .ok e)
    (hd : e.direction ≠ none) :
    e.type = JS_EVENT_AXIS ∧ e.type &&& JS_EVENT_INIT = 0 ∧ e.value ≠ 0 := by
  obtain ⟨hl, -, -, -, -, hdir⟩ := decode_ok_fields hdec
  rw [hdir] at hd
  obtain ⟨hty, hv⟩ := get_direction_ne_none hd
  exact ⟨hty, by rw [hty]; decide, hv⟩

/-- A concrete axis record for the C9 witness: value bytes `255, 255`
decode to `-1`, type `2`, number `0`. -/
def C9raw : List Byte := [0, 0, 0, 0, 255, 255, 2, 0]

/-- The event decoded from `C9raw` in little-endian order. -/
def C9event : JoystickEvent :=
  { time := [0, 0, 0, 0], value := -1, type := 2, number := 0,
    direction := some DIR_ARROW_LEFT }

/-- C9 witness: the leftward event decoded from `C9raw` has a pure `AXIS`
type and a nonzero value. -/
theorem C9_direction_implies_axis_witness :
    C9event.type = JS_EVENT_AXIS ∧ C9event.type &&& JS_EVENT_INIT = 0 ∧
      C9event.value ≠ 0 :=
  C9_direction_implies_axis .little C9raw C9event rfl (by decide)

/-- C10: calling `bind` with an operation outside `{None, '+', '-'}` or a
category outside the five enumerated ones fails before any mutation: the
call reports an error and every category's handler list is exactly as it
was before the call. -/
theorem C10_bind_invalid_is_error_and_atomic {H : Type} (fm : FunctionMap H)
    (event_type : Nat) (f : H) (op : Option String)
    (hbad : op ∉ ([none, some "+", some "-"] : List (Option String)) ∨
      event_type ∉ validCategories) :
    (∃ msg, bind fm event_type f op = .error msg) ∧
      ∀ c, invoke (bind_run fm event_type f op) c = invoke fm c := by
  have herr : ∃ msg, bind fm event_type f op = .error msg := by
    unfold bind
    rcases hbad with hop | het
    · rw [if_neg hop]
      exact ⟨_, rfl⟩
    · by_cases hop2 :
        op ∈ ([none, some "+", some "-"] : List (Option String))
      · rw [if_pos hop2, if_neg het]
        exact ⟨_, rfl⟩
      · rw [if_neg hop2]
        exact ⟨_, rfl⟩
  refine ⟨herr, fun c => ?_⟩
  obtain ⟨msg, hmsg⟩ := herr
  unfold bind_run
  rw [hmsg]

/-- C10 witness: the unknown operation string `"*"` is rejected and the
empty table is left untouched. -/
theorem C10_bind_invalid_witness :
    (∃ msg, bind (FunctionMap.empty Nat) BUTTON_PRESS 1 (some "*") =
      .error msg) ∧
    ∀ c, invoke (bind_run (FunctionMap.empty Nat) BUTTON_PRESS 1
      (some "*")) c = invoke (FunctionMap.empty Nat) c :=
  C10_bind_invalid_is_error_and_atomic (FunctionMap.empty Nat) BUTTON_PRESS 1
    (some "*") (Or.inl (by decide))

end Pjla
